import Mathlib

/-!
Shallow embedding of the SAPDO backend core: the CSV storage router
(`backend/app/core/csv_processor.py`), the wide-CSV chunked ingestion engine
(`backend/app/core/duckdb_processor.py`), the metadata catalog
(`backend/app/core/metadata_store.py`) and the wide-CSV processor with its
query translator and delete path (`backend/app/core/wide_csv_processor.py`,
`backend/app/core/vector_store.py`).

Conventions used throughout:
* Python strings are Lean `String`s; character-level operations
  (`str.lower`, `str.isalnum`, `str.isdigit`) are modelled by
  `Char.toLower`, `Char.isAlphanum`, `Char.isDigit`, i.e. with their
  basic-Latin semantics.
* A Python value that may be `None` is an `Option`.
* An uncaught Python exception (`raise ValueError`) propagating out of an
  operation is modelled as `Except.error`; a typed return value is
  `Except.ok` (or a plain value for operations that cannot raise).
* Effects of external engines (DuckDB query execution, embedding models)
  are parameters of the functions that invoke them; the state they act on
  (catalog rows, embedding records, files on disk) is explicit.
-/

namespace SAPDO

/-! ### Storage router: `csv_processor.py` -/

/-- Maximum number of columns for Supabase/PostgreSQL (`csv_processor.py`,
line 17). -/
def MAX_POSTGRES_COLUMNS : Nat := 1600

/-- The two ingestion paths `process_csv_file` can take. -/
inductive StoragePath where
  | widePath
  | narrowPath
deriving DecidableEq

namespace CsvProcessor

/-- Routing decision of `process_csv_file` (`csv_processor.py`, lines 36-79).
The argument is the outcome of reading the CSV header row with
`pd.read_csv(..., nrows=1)`: `none` when the header read raises, in which
case the code prints the error and falls through to the regular (narrow)
processing; otherwise the list of header column names.  `widePath` is
returned exactly when the code takes the `num_columns > MAX_POSTGRES_COLUMNS`
branch, which instantiates and invokes `WideCsvProcessor`. -/
def process_csv_file_route (headerRead : Option (List String)) : StoragePath :=
  match headerRead with
  | none => .narrowPath
  | some header =>
    if header.length > MAX_POSTGRES_COLUMNS then .widePath else .narrowPath

/-- Step 1 of `clean_column_name` (`csv_processor.py`, line 129): Python
`name.lower()`, character-wise. -/
def pyLower (s : List Char) : List Char := s.map Char.toLower

/-- Step 2 of `clean_column_name` (line 129): Python `.replace(' ', '_')`. -/
def pyReplaceSpace (s : List Char) : List Char :=
  s.map (fun c => if c = ' ' then '_' else c)

/-- Step 3 of `clean_column_name` (line 130): keep alphanumerics and
underscores, map every other character to an underscore. -/
def pyKeepAlnum (s : List Char) : List Char :=
  s.map (fun c => if c.isAlphanum || c = '_' then c else '_')

/-- Lines 129-130 of `clean_column_name` composed in source order. -/
def cleanCore (name : List Char) : List Char :=
  pyKeepAlnum (pyReplaceSpace (pyLower name))

/-- `clean_column_name` (`csv_processor.py`, lines 118-136) on the character
list of the input.  Line 133 indexes `cleaned[0]` unconditionally, which in
Python raises `IndexError` on an empty string; that failure is the `none`
branch here.  When the cleaned string starts with a digit, `'col_'` is
prefixed (line 134). -/
def cleanColumnNameData (name : List Char) : Option (List Char) :=
  match cleanCore name with
  | [] => none
  | c :: rest =>
    if c.isDigit then some ('c' :: 'o' :: 'l' :: '_' :: (c :: rest))
    else some (c :: rest)

/-- `clean_column_name` on Lean `String`s. -/
def clean_column_name (name : String) : Option String :=
  (cleanColumnNameData name.data).map (fun l => ⟨l⟩)

end CsvProcessor

/-! ### Chunked ingestion engine: `duckdb_processor.py` -/

namespace DuckDBProcessor

/-- A pandas dtype as far as the wide path distinguishes them. -/
inductive PdDtype where
  | object
  | int64
  | float64
deriving DecidableEq

/-- A cell of a pandas Series: missing (`NaN`), a string, or a number
(numbers are modelled as rationals; `x == int(x)` becomes `den = 1`). -/
inductive PdValue where
  | na
  | str (s : String)
  | num (q : Rat)
deriving DecidableEq

/-- A pandas Series: its dtype tag and its cells. -/
structure PdSeries where
  dtype : PdDtype
  values : List PdValue
deriving DecidableEq

/-- One column of the first chunk as produced by
`pd.read_csv(csv_file, chunksize=..., low_memory=True, dtype='object')`
(`duckdb_processor.py`, lines 70-75): requesting `dtype='object'` makes
pandas give every column the `object` dtype, with each present cell kept as
its string and missing cells as `NaN`. -/
def readCsvObjectColumn (cells : List (Option String)) : PdSeries :=
  { dtype := .object
    values := cells.map (fun c =>
      match c with
      | none => .na
      | some s => .str s) }

/-- `pd.api.types.is_numeric_dtype` applied to a Series: it is decided by
the dtype alone, never by the cell contents. -/
def is_numeric_dtype (s : PdSeries) : Bool :=
  match s.dtype with
  | .int64 => true
  | .float64 => true
  | .object => false

/-- `pd.isna` on a cell. -/
def pdIsna (v : PdValue) : Bool :=
  match v with
  | .na => true
  | _ => false

/-- The test `x == int(x)` on a numeric cell (true exactly when the number
is integral); non-numeric cells never satisfy it. -/
def isIntegral (v : PdValue) : Bool :=
  match v with
  | .num q => q.den == 1
  | _ => false

/-- The per-column dtype inference of `process_csv_file`
(`duckdb_processor.py`, lines 85-98): if the column's dtype is numeric and
`first_chunk[col].apply(lambda x: pd.isna(x) or (x == int(x) if
pd.notnull(x) else True)).all()` holds, the column is typed `'Int64'`;
numeric with a fractional value gives `'float64'`; otherwise `'object'`. -/
def inferDtype (s : PdSeries) : String :=
  if is_numeric_dtype s then
    if s.values.all (fun x => pdIsna x || isIntegral x) then "Int64"
    else "float64"
  else "object"

end DuckDBProcessor

/-! ### Metadata catalog: `metadata_store.py`

SQLite `AUTOINCREMENT` row ids are not modelled; rows are identified by
their position (insertion order), which is also the order in which SQLite
returns them for the queries the store issues (none uses `ORDER BY`). -/

/-- An element of `column_metadata["columns"]` as produced by the ingestion
engine (`duckdb_processor.py`, line 104): a name and a dtype string. -/
structure ColumnMeta where
  name : String
  type : String
deriving DecidableEq

/-- A row of the `columns` table (`metadata_store.py`, lines 49-60). -/
structure ColumnRow where
  datasetId : String
  name : String
  type : String
  description : Option String
deriving DecidableEq

/-- A row of the `column_groups` table (lines 67-76). -/
structure ColumnGroup where
  datasetId : String
  name : String
  description : String
  columns : List String
deriving DecidableEq

/-- A row of the `datasets` table (lines 33-46). -/
structure DatasetRow where
  id : String
  name : String
  description : String
  tableName : String
  createdAt : String
  columnCount : Nat
  rowCount : Nat
  fileSize : Option Nat
  storageFormat : String
  tags : Option (List String)
deriving DecidableEq

/-- The three tables of the SQLite metadata store. -/
structure MetadataStore where
  datasets : List DatasetRow
  columns : List ColumnRow
  groups : List ColumnGroup
deriving DecidableEq

/-- A store with no rows (a fresh `metadata.sqlite`). -/
def MetadataStore.empty : MetadataStore := ⟨[], [], []⟩

namespace MetadataStore

/-- Insertion-order deduplication: the iteration order of a Python `dict`
built by inserting keys as they are first seen. -/
def firstOccurrences (keys : List String) : List String :=
  keys.foldl (fun acc k => if k ∈ acc then acc else acc ++ [k]) []

/-- The type-based groups of `_create_automatic_column_groups`
(`metadata_store.py`, lines 157-175): one group per distinct column type, in
first-occurrence order, holding the names of the columns of that type. -/
def typeGroups (datasetId : String) (cols : List ColumnMeta) : List ColumnGroup :=
  (firstOccurrences (cols.map ColumnMeta.type)).map (fun t =>
    { datasetId := datasetId
      name := "Type: " ++ t
      description := "Columns with type " ++ t
      columns := (cols.filter (fun c => c.type == t)).map ColumnMeta.name })

/-- `parts = col["name"].split('_'); parts[0] if len(parts) > 1` (lines
181-186): the prefix of a column name, when the name has one. -/
def namePrefixKey (n : String) : Option String :=
  match n.splitOn "_" with
  | p :: _ :: _ => some p
  | _ => none

/-- The prefix-based groups of `_create_automatic_column_groups` (lines
178-199): group columns by name prefix and keep the groups with at least 5
members, in first-occurrence order of the prefix. -/
def prefixGroups (datasetId : String) (cols : List ColumnMeta) : List ColumnGroup :=
  (firstOccurrences (cols.filterMap (fun c => namePrefixKey c.name))).filterMap
    (fun p =>
      let members := (cols.filter (fun c => namePrefixKey c.name == some p)).map
        ColumnMeta.name
      if members.length ≥ 5 then
        some { datasetId := datasetId
               name := "Prefix: " ++ p
               description := "Columns starting with " ++ p ++ "_"
               columns := members }
      else none)

/-- The loop body of the sequential windows (lines 201-215):
`for i in range(0, len(columns), 500)` with `end_idx = min(i + 500,
len(columns))` and the slice `columns[i:end_idx]`.  `total` is
`len(columns)` of the original list and `i` the running start index. -/
def seqWindowsGo (datasetId : String) (total i : Nat) (xs : List ColumnMeta) :
    List ColumnGroup :=
  match xs with
  | [] => []
  | c :: rest =>
    { datasetId := datasetId
      name := "Columns " ++ toString (i + 1) ++ "-" ++ toString (min (i + 500) total)
      description := "Sequential group of columns from " ++ toString (i + 1) ++
        " to " ++ toString (min (i + 500) total)
      columns := ((c :: rest).take 500).map ColumnMeta.name } ::
      seqWindowsGo datasetId total (i + 500) ((c :: rest).drop 500)
termination_by xs.length
decreasing_by simp only [List.length_drop, List.length_cons]; omega

/-- The fixed-size sequential windows (500 columns each) of
`_create_automatic_column_groups` (lines 201-215). -/
def seqWindowGroups (datasetId : String) (cols : List ColumnMeta) : List ColumnGroup :=
  seqWindowsGo datasetId cols.length 0 cols

/-- `_create_automatic_column_groups` (lines 147-217): type groups, then
prefix groups, then sequential windows, inserted in that order. -/
def createAutomaticColumnGroups (datasetId : String) (cols : List ColumnMeta) :
    List ColumnGroup :=
  typeGroups datasetId cols ++ prefixGroups datasetId cols ++
    seqWindowGroups datasetId cols

/-- `store_dataset_metadata` (lines 80-145): insert the dataset row, insert
one `columns` row per column (the 500-per-batch insertion loop leaves the
same final rows as inserting them all, in order), and when
`len(columns) > 1000` derive the automatic column groups.  `now` stands for
`datetime.now().isoformat()`. -/
def store_dataset_metadata (s : MetadataStore) (datasetId name description tableName : String)
    (columnMetadata : List ColumnMeta) (rowCount : Nat) (fileSize : Option Nat)
    (tags : Option (List String)) (now : String) : MetadataStore :=
  { datasets := s.datasets ++
      [{ id := datasetId
         name := name
         description := description
         tableName := tableName
         createdAt := now
         columnCount := columnMetadata.length
         rowCount := rowCount
         fileSize := fileSize
         storageFormat := "parquet"
         tags := tags }]
    columns := s.columns ++
      columnMetadata.map (fun c => ColumnRow.mk datasetId c.name c.type none)
    groups := s.groups ++
      (if columnMetadata.length > 1000 then
        createAutomaticColumnGroups datasetId columnMetadata
      else []) }

/-- `SELECT * FROM columns WHERE dataset_id = ?`, in insertion order. -/
def columnsOf (s : MetadataStore) (datasetId : String) : List ColumnRow :=
  s.columns.filter (fun c => c.datasetId == datasetId)

/-- A column as rendered by `get_dataset` and `_get_columns_sample`
(`{"name", "type", "description"}`). -/
structure ColumnInfo where
  name : String
  type : String
  description : Option String
deriving DecidableEq

/-- A group as rendered by `get_dataset` (`{"id", "name", "description"}`,
minus the unmodelled autoincrement id). -/
structure GroupInfo where
  name : String
  description : String
deriving DecidableEq

/-- The dictionary `get_dataset` returns.  The wide branch (more than 1000
column rows) fills `columnGroups`/`columnsSample` and sets
`columnsTruncated`; the narrow branch fills `columns`.  A key absent from
the Python dictionary is `none` (and `columnsTruncated := false`). -/
structure DatasetView where
  id : String
  name : String
  description : String
  tableName : String
  createdAt : String
  columnCount : Nat
  rowCount : Nat
  fileSize : Option Nat
  storageFormat : String
  tags : List String
  columnGroups : Option (List GroupInfo)
  columnsTruncated : Bool
  columnsSample : Option (List ColumnInfo)
  columns : Option (List ColumnInfo)
deriving DecidableEq

/-- `_get_columns_sample` (lines 281-297): the dataset's column rows,
capped at `limit`. -/
def getColumnsSample (s : MetadataStore) (datasetId : String) (limit : Nat) :
    List ColumnInfo :=
  ((columnsOf s datasetId).take limit).map (fun c => ⟨c.name, c.type, c.description⟩)

/-- `get_dataset` (lines 219-279): look the dataset row up; count its
column rows (`SELECT COUNT(*)`); above 1000 return the group list and a
10-column sample instead of the columns, otherwise the full column list. -/
def get_dataset (s : MetadataStore) (datasetId : String) : Option DatasetView :=
  match s.datasets.find? (fun d => d.id == datasetId) with
  | none => none
  | some d =>
    let columnCount := (columnsOf s datasetId).length
    if columnCount > 1000 then
      some { id := d.id
             name := d.name
             description := d.description
             tableName := d.tableName
             createdAt := d.createdAt
             columnCount := d.columnCount
             rowCount := d.rowCount
             fileSize := d.fileSize
             storageFormat := d.storageFormat
             tags := d.tags.getD []
             columnGroups := some ((s.groups.filter
               (fun g => g.datasetId == datasetId)).map (fun g => ⟨g.name, g.description⟩))
             columnsTruncated := true
             columnsSample := some (getColumnsSample s datasetId 10)
             columns := none }
    else
      some { id := d.id
             name := d.name
             description := d.description
             tableName := d.tableName
             createdAt := d.createdAt
             columnCount := d.columnCount
             rowCount := d.rowCount
             fileSize := d.fileSize
             storageFormat := d.storageFormat
             tags := d.tags.getD []
             columnGroups := none
             columnsTruncated := false
             columnsSample := none
             columns := some ((columnsOf s datasetId).map
               (fun c => ⟨c.name, c.type, c.description⟩)) }

/-- `delete_dataset` of the metadata store (lines 415-437): delete the
dataset's column rows, group rows and dataset row. -/
def delete_dataset (s : MetadataStore) (datasetId : String) : MetadataStore :=
  { datasets := s.datasets.filter (fun d => !(d.id == datasetId))
    columns := s.columns.filter (fun c => !(c.datasetId == datasetId))
    groups := s.groups.filter (fun g => !(g.datasetId == datasetId)) }

end MetadataStore

/-! ### Wide CSV processor: `wide_csv_processor.py` and `vector_store.py` -/

/-- The configured vector-store backend (`VECTOR_STORE_TYPE`,
`vector_store.py` line 21): `local` is the in-process `VectorStore`,
`pinecone` the `PineconeVectorStore`, `qdrant` the `QdrantVectorStore`. -/
inductive VectorStoreType where
  | localStore
  | pinecone
  | qdrant
deriving DecidableEq

/-- An embedding record held by the active vector-store backend: the
metadata every backend attaches to a column vector (`vector_store.py`,
lines 87-92 and the analogous Pinecone/Qdrant payloads).  The vector itself
is irrelevant to the claims and not modelled. -/
structure EmbeddingRecord where
  datasetId : String
  columnName : String
  columnType : String
  description : String
deriving DecidableEq

/-- The state a `WideCsvProcessor` instance acts on: the configured backend
kind, the metadata store, the embedding records visible to the active
backend, the per-dataset replica files of the local backend
(`./data/vector_store/<dataset_id>.json`, named here by dataset id) and the
Parquet files (`./data/<table_name>.parquet`, named here by table name). -/
structure WideState where
  storeType : VectorStoreType
  meta : MetadataStore
  embeddings : List EmbeddingRecord
  localFiles : List String
  parquetFiles : List String
deriving DecidableEq

/-- A ranked result of `search_columns` (`vector_store.py`, lines 135-146):
dataset id, column name, column type, description and similarity score
(the float score is modelled as a rational). -/
structure RankedColumn where
  datasetId : String
  columnName : String
  columnType : String
  description : String
  score : Rat
deriving DecidableEq

/-- A result row as returned by `DuckDBProcessor.query_table`: a list of
(column name, rendered value) pairs. -/
abbrev ResultRow := List (String × String)

/-- The engines `WideCsvProcessor.query_dataset` calls out to:
`duckdb_processor.query_table`, `vector_store.search_columns` and
`duckdb_processor.get_table_sample`.  Their behavior (SQL execution,
embedding similarity) is external to this embedding and passed in. -/
structure QueryBackend where
  queryTable : String → String → Nat → List ResultRow
  searchColumns : String → Nat → List RankedColumn
  getTableSample : String → Nat → List ResultRow

/-- The whitespace characters Python `str.strip()` removes. -/
def pyWhitespaceChar (c : Char) : Bool :=
  c = ' ' || c = '\t' || c = '\n' || c = '\r' || c = '\x0b' || c = '\x0c'

/-- Python `str.strip()`: drop whitespace from both ends. -/
def pyStrip (s : List Char) : List Char :=
  ((s.dropWhile pyWhitespaceChar).reverse.dropWhile pyWhitespaceChar).reverse

/-- Python `str.upper()`, character-wise (basic Latin semantics). -/
def pyUpperChars (s : List Char) : List Char := s.map Char.toUpper

/-- Python `str.lower()`, character-wise (basic Latin semantics). -/
def pyLowerChars (s : List Char) : List Char := s.map Char.toLower

/-- Python `str.startswith(pre)`. -/
def pyStartsWith (s pre : List Char) : Bool := pre.isPrefixOf s

/-- Python `needle in hay` on strings: some contiguous substring of `hay`
is `needle`. -/
def strContains (hay needle : List Char) : Bool :=
  hay.tails.any (fun t => needle.isPrefixOf t)

namespace WideCsvProcessor

/-- The three shapes of dictionary `query_dataset` returns, tagged by their
`"type"` value: `sql_query`, `nl_query` or `sample`. -/
inductive QueryResult where
  | sqlQuery (query : String) (results : List ResultRow)
  | nlQuery (query : String) (sqlQuery : String) (relevantColumns : List RankedColumn)
      (results : List ResultRow)
  | sample (query : String) (message : String) (results : List ResultRow)
deriving DecidableEq

/-- `query_dataset` (`wide_csv_processor.py`, lines 128-192).  An unknown
dataset id raises `ValueError` (line 143), modelled as `Except.error`.  A
`query_text` whose stripped upper-casing starts with `SELECT` is passed
verbatim to `query_table` (lines 146-152).  Otherwise the vector store is
searched; with at least one relevant column a SQL template is chosen by the
keyword tests of lines 163-173 (in source order, first match winning), and
with none a 5-row sample is returned (lines 187-192). -/
def query_dataset (b : QueryBackend) (st : WideState) (datasetId queryText : String)
    (limit : Nat) : Except String QueryResult :=
  match st.meta.get_dataset datasetId with
  | none => .error ("Dataset not found: " ++ datasetId)
  | some dataset =>
    if pyStartsWith (pyUpperChars (pyStrip queryText.data)) "SELECT".data then
      .ok (.sqlQuery queryText (b.queryTable dataset.tableName queryText limit))
    else
      match b.searchColumns queryText 5 with
      | [] =>
        .ok (.sample queryText
          "Could not determine relevant columns for your query. Here's a sample of the data:"
          (b.getTableSample dataset.tableName 5))
      | top :: rest =>
        let topColumn := top.columnName
        let lowered := pyLowerChars queryText.data
        let sqlQuery :=
          if strContains lowered "count".data ||
              strContains lowered "how many".data then
            "SELECT COUNT(*) AS count FROM " ++ dataset.tableName
          else if strContains lowered "average".data ||
              strContains lowered "mean".data then
            "SELECT AVG(" ++ topColumn ++ ") AS average FROM " ++ dataset.tableName
          else if strContains lowered "maximum".data ||
              strContains lowered "max".data then
            "SELECT MAX(" ++ topColumn ++ ") AS maximum FROM " ++ dataset.tableName
          else if strContains lowered "minimum".data ||
              strContains lowered "min".data then
            "SELECT MIN(" ++ topColumn ++ ") AS minimum FROM " ++ dataset.tableName
          else
            "SELECT " ++ topColumn ++ " FROM " ++ dataset.tableName ++ " LIMIT " ++
              toString limit
        .ok (.nlQuery queryText sqlQuery (top :: rest)
          (b.queryTable dataset.tableName sqlQuery limit))

/-- `delete_dataset` (`wide_csv_processor.py`, lines 259-292): an unknown id
returns `false`; otherwise the metadata rows are deleted, then — depending
on the backend — the local replica file is unlinked (`local`), or the
vectors with the dataset id are deleted (`pinecone`, whose class has a
`delete_dataset` method); the `qdrant` branch does not exist, so nothing is
removed from a Qdrant backend.  Finally the Parquet file is unlinked. -/
def delete_dataset (st : WideState) (datasetId : String) : WideState × Bool :=
  match st.meta.get_dataset datasetId with
  | none => (st, false)
  | some dataset =>
    let st1 : WideState := { st with meta := st.meta.delete_dataset datasetId }
    let st2 : WideState :=
      match st.storeType with
      | .localStore => { st1 with localFiles := st1.localFiles.filter (fun f => !(f == datasetId)) }
      | .pinecone =>
        { st1 with embeddings := st1.embeddings.filter (fun e => !(e.datasetId == datasetId)) }
      | .qdrant => st1
    ({ st2 with
        parquetFiles := st2.parquetFiles.filter (fun f => !(f == dataset.tableName)) },
      true)

/-- The outcome of `duckdb_processor.process_csv_file` as consumed by
`WideCsvProcessor.process_csv_file`: backing table name, row count and
column metadata — or a raised exception. -/
structure DuckIngest where
  tableName : String
  rowCount : Nat
  columns : List ColumnMeta
deriving DecidableEq

/-- The dictionary `WideCsvProcessor.process_csv_file` returns (lines
114-122). -/
structure IngestResult where
  id : String
  name : String
  description : Option String
  tableName : String
  columnCount : Nat
  rowCount : Nat
  fileSize : Nat
deriving DecidableEq

/-- `process_csv_file` (`wide_csv_processor.py`, lines 60-126).  The DuckDB
step's outcome is the `ingest` parameter (it writes the Parquet file when it
succeeds); on failure the surrounding `except` re-raises
`ValueError("Failed to process CSV file: ...")`, modelled as `Except.error`.
On success the metadata is stored, every column is indexed into the active
vector store, and the local backend saves its replica file. -/
def process_csv_file (ingest : Except String DuckIngest) (st : WideState)
    (datasetId datasetName : String) (description : Option String) (fileSize : Nat)
    (now : String) : Except String (WideState × IngestResult) :=
  match ingest with
  | .error e => .error ("Failed to process CSV file: " ++ e)
  | .ok r =>
    let meta' := st.meta.store_dataset_metadata datasetId datasetName
      (description.getD ("Dataset uploaded on " ++ now)) r.tableName r.columns
      r.rowCount (some fileSize) none now
    let newRecords := r.columns.map
      (fun c => EmbeddingRecord.mk datasetId c.name c.type "")
    let st' : WideState :=
      { st with
          meta := meta'
          embeddings := st.embeddings ++ newRecords
          localFiles :=
            match st.storeType with
            | .localStore => st.localFiles ++ [datasetId]
            | _ => st.localFiles
          parquetFiles := st.parquetFiles ++ [r.tableName] }
    .ok (st',
      { id := datasetId
        name := datasetName
        description := description
        tableName := r.tableName
        columnCount := r.columns.length
        rowCount := r.rowCount
        fileSize := fileSize })

end WideCsvProcessor

/-! ### Concrete fixtures used to evaluate the theorems on closed inputs -/

/-- The per-character action of `clean_column_name`'s lines 129-130 (the
composition of the three whole-string steps, per character). -/
def cleanChar (c : Char) : Char :=
  let l := c.toLower
  let l2 := if l = ' ' then '_' else l
  if l2.isAlphanum || l2 = '_' then l2 else '_'

/-- A one-dataset, one-column catalog: dataset `d1` backed by table `t1`. -/
def sampleDatasetRow : DatasetRow :=
  ⟨"d1", "sample", "a dataset", "t1", "2024-01-01", 1, 3, none, "parquet", none⟩

/-- The metadata store holding just `sampleDatasetRow` and its column. -/
def sampleMeta : MetadataStore :=
  ⟨[sampleDatasetRow], [⟨"d1", "c1", "object", none⟩], []⟩

/-- A local-backend state over `sampleMeta`, with `d1`'s embedding record,
replica file and Parquet file present. -/
def sampleWideState : WideState :=
  ⟨.localStore, sampleMeta, [⟨"d1", "c1", "object", ""⟩], ["d1"], ["t1"]⟩

/-- The same populated state configured with the Qdrant backend. -/
def qdrantDemoState : WideState :=
  ⟨.qdrant, sampleMeta, [⟨"d1", "c1", "object", ""⟩], [], ["t1"]⟩

/-- A state whose catalog is empty (no dataset is known). -/
def emptyWideState : WideState := ⟨.localStore, .empty, [], [], []⟩

/-- A query backend that echoes the SQL it is asked to run and whose
semantic index is empty. -/
def echoBackend : QueryBackend :=
  ⟨fun _ q _ => [[("sql", q)]], fun _ _ => [], fun _ _ => []⟩

/-- The same backend but with a semantic index that always finds the column
`c1` of dataset `d1`. -/
def echoBackendSearch : QueryBackend :=
  ⟨fun _ q _ => [[("sql", q)]], fun _ _ => [⟨"d1", "c1", "object", "", 1⟩],
    fun _ _ => []⟩

/-- A 2000-column metadata list (the 2000-column ingestion scenario). -/
def cols2000 : List ColumnMeta := List.replicate 2000 ⟨"c0", "object"⟩

/-! ### Helper lemmas -/

/-- `Char.toLower` written as its defining conditional. -/
theorem charToLower_def (c : Char) :
    c.toLower = if c.toNat ≥ 65 ∧ c.toNat ≤ 90 then Char.ofNat (c.toNat + 32) else c :=
  rfl

/-- A valid scalar value below the surrogate range round-trips through
`Char.ofNat`. -/
theorem charToNat_ofNat {m : Nat} (h : m < 55296) : (Char.ofNat m).toNat = m := by
  have hv : m.isValidChar := Or.inl h
  rw [Char.ofNat, dif_pos hv]
  simp [Char.ofNatAux, Char.toNat, UInt32.toNat]

/-- The output of `Char.toLower` is never an upper-case basic Latin letter. -/
theorem charToLower_not_upper (c : Char) :
    ¬(65 ≤ c.toLower.toNat ∧ c.toLower.toNat ≤ 90) := by
  rw [charToLower_def]
  split
  case isTrue h =>
    have hval : c.toNat + 32 < 55296 := by omega
    rw [charToNat_ofNat hval]
    omega
  case isFalse h =>
    intro hc
    exact h ⟨hc.1, hc.2⟩

/-- `Char.toLower` is idempotent. -/
theorem charToLower_idem (c : Char) : c.toLower.toLower = c.toLower := by
  conv_lhs => rw [charToLower_def]
  rw [if_neg (charToLower_not_upper c)]

/-- A non-space character fixed by `Char.toLower` is fixed by `cleanChar`
as soon as it passes the alphanumeric-or-underscore test. -/
theorem cleanChar_fixed (c : Char) (hlow : c.toLower = c) (hsp : c ≠ ' ')
    (halnum : (c.isAlphanum || c = '_') = true) : cleanChar c = c := by
  simp only [cleanChar, hlow, if_neg hsp, if_pos halnum]

/-- `cleanChar` fixes the underscore. -/
theorem cleanChar_underscore : cleanChar '_' = '_' := by decide

/-- `cleanChar` is idempotent. -/
theorem cleanChar_idem (c : Char) : cleanChar (cleanChar c) = cleanChar c := by
  by_cases hsp : c.toLower = ' '
  · have h1 : cleanChar c = '_' := by
      simp only [cleanChar, hsp]
      decide
    rw [h1, cleanChar_underscore]
  · by_cases halnum : (c.toLower.isAlphanum || c.toLower = '_') = true
    · have h1 : cleanChar c = c.toLower := by
        simp only [cleanChar, if_neg hsp, if_pos halnum]
      rw [h1]
      exact cleanChar_fixed c.toLower (charToLower_idem c) hsp halnum
    · have h1 : cleanChar c = '_' := by
        simp only [cleanChar, if_neg hsp, if_neg halnum]
      rw [h1, cleanChar_underscore]

/-- The three string steps of `clean_column_name` compose to one map of
`cleanChar`. -/
theorem cleanCore_eq_map (s : List Char) :
    CsvProcessor.cleanCore s = s.map cleanChar := by
  simp only [CsvProcessor.cleanCore, CsvProcessor.pyKeepAlnum,
    CsvProcessor.pyReplaceSpace, CsvProcessor.pyLower, List.map_map]
  apply List.map_congr_left
  intro c _
  rfl

/-- `cleanCore` is idempotent. -/
theorem cleanCore_idem (s : List Char) :
    CsvProcessor.cleanCore (CsvProcessor.cleanCore s) = CsvProcessor.cleanCore s := by
  rw [cleanCore_eq_map, cleanCore_eq_map]
  induction s with
  | nil => rfl
  | cons c t ih => simp only [List.map_cons, ih, cleanChar_idem]

/-- `cleanColumnNameData` on a name whose cleaning is empty. -/
theorem cleanColumnNameData_nil (l : List Char)
    (hcc : CsvProcessor.cleanCore l = []) :
    CsvProcessor.cleanColumnNameData l = none := by
  unfold CsvProcessor.cleanColumnNameData
  rw [hcc]

/-- `cleanColumnNameData` on a name whose cleaning is non-empty. -/
theorem cleanColumnNameData_cons (l : List Char) (c : Char) (rest : List Char)
    (hcc : CsvProcessor.cleanCore l = c :: rest) :
    CsvProcessor.cleanColumnNameData l =
      if c.isDigit then some ('c' :: 'o' :: 'l' :: '_' :: c :: rest)
      else some (c :: rest) := by
  unfold CsvProcessor.cleanColumnNameData
  rw [hcc]

/-- `cleanColumnNameData` is idempotent on the lists it cleans. -/
theorem cleanColumnNameData_idem (l r : List Char)
    (h : CsvProcessor.cleanColumnNameData l = some r) :
    CsvProcessor.cleanColumnNameData r = some r := by
  cases hcc : CsvProcessor.cleanCore l with
  | nil => rw [cleanColumnNameData_nil l hcc] at h; cases h
  | cons c rest =>
    rw [cleanColumnNameData_cons l c rest hcc] at h
    have hfix : CsvProcessor.cleanCore (c :: rest) = c :: rest := by
      conv_lhs => rw [← hcc]
      rw [← hcc]
      exact cleanCore_idem l
    have h2 := hfix
    rw [cleanCore_eq_map] at h2
    simp only [List.map_cons] at h2
    injection h2 with h2a h2b
    by_cases hd : c.isDigit = true
    · rw [if_pos hd] at h
      have hr : r = 'c' :: 'o' :: 'l' :: '_' :: c :: rest := (Option.some.inj h).symm
      subst hr
      have hcc2 : CsvProcessor.cleanCore ('c' :: 'o' :: 'l' :: '_' :: c :: rest) =
          'c' :: ('o' :: 'l' :: '_' :: c :: rest) := by
        rw [cleanCore_eq_map]
        simp only [List.map_cons, h2a, h2b, cleanChar_underscore]
        rw [show cleanChar 'c' = 'c' from by decide,
          show cleanChar 'o' = 'o' from by decide,
          show cleanChar 'l' = 'l' from by decide]
      rw [cleanColumnNameData_cons _ 'c' _ hcc2, if_neg (by decide)]
    · rw [if_neg hd] at h
      have hr : r = c :: rest := (Option.some.inj h).symm
      subst hr
      rw [cleanColumnNameData_cons _ c rest hfix, if_neg hd]

/-- `cleanColumnNameData` fails exactly on the empty list. -/
theorem cleanColumnNameData_eq_none (l : List Char) :
    CsvProcessor.cleanColumnNameData l = none ↔ l = [] := by
  constructor
  · intro h
    cases hcc : CsvProcessor.cleanCore l with
    | nil =>
      rw [cleanCore_eq_map] at hcc
      exact List.map_eq_nil_iff.mp hcc
    | cons c rest =>
      rw [cleanColumnNameData_cons l c rest hcc] at h
      by_cases hd : c.isDigit = true
      · rw [if_pos hd] at h
        cases h
      · rw [if_neg hd] at h
        cases h
  · intro h
    subst h
    rfl

/-- There are exactly `⌈length / 500⌉` sequential windows. -/
theorem seqWindowsGo_length (d : String) (t : Nat) :
    ∀ (n i : Nat) (xs : List ColumnMeta), xs.length ≤ n →
      (MetadataStore.seqWindowsGo d t i xs).length = (xs.length + 499) / 500 := by
  intro n
  induction n with
  | zero =>
    intro i xs h
    have hx : xs = [] := List.eq_nil_of_length_eq_zero (Nat.le_zero.mp h)
    subst hx
    simp [MetadataStore.seqWindowsGo]
  | succ n ih =>
    intro i xs h
    match xs with
    | [] => simp [MetadataStore.seqWindowsGo]
    | c :: rest =>
      rw [MetadataStore.seqWindowsGo]
      have hrec := ih (i + 500) ((c :: rest).drop 500)
        (by simp only [List.length_drop, List.length_cons] at *; omega)
      simp only [List.length_cons, hrec, List.length_drop]
      omega

/-- The sequential windows partition the column list in order. -/
theorem seqWindowsGo_join (d : String) (t : Nat) :
    ∀ (n i : Nat) (xs : List ColumnMeta), xs.length ≤ n →
      ((MetadataStore.seqWindowsGo d t i xs).map ColumnGroup.columns).flatten =
        xs.map ColumnMeta.name := by
  intro n
  induction n with
  | zero =>
    intro i xs h
    have hx : xs = [] := List.eq_nil_of_length_eq_zero (Nat.le_zero.mp h)
    subst hx
    simp [MetadataStore.seqWindowsGo]
  | succ n ih =>
    intro i xs h
    match xs with
    | [] => simp [MetadataStore.seqWindowsGo]
    | c :: rest =>
      rw [MetadataStore.seqWindowsGo]
      have hrec := ih (i + 500) ((c :: rest).drop 500)
        (by simp only [List.length_drop, List.length_cons] at *; omega)
      simp only [List.map_cons, List.flatten_cons, hrec]
      rw [← List.map_append, List.take_append_drop]
      rfl

/-- No sequential window holds more than 500 columns. -/
theorem seqWindowsGo_bound (d : String) (t : Nat) :
    ∀ (n i : Nat) (xs : List ColumnMeta), xs.length ≤ n →
      ∀ g ∈ MetadataStore.seqWindowsGo d t i xs, g.columns.length ≤ 500 := by
  intro n
  induction n with
  | zero =>
    intro i xs h
    have hx : xs = [] := List.eq_nil_of_length_eq_zero (Nat.le_zero.mp h)
    subst hx
    simp [MetadataStore.seqWindowsGo]
  | succ n ih =>
    intro i xs h g hg
    match xs, hg with
    | [], hg => simp [MetadataStore.seqWindowsGo] at hg
    | c :: rest, hg =>
      rw [MetadataStore.seqWindowsGo] at hg
      rcases List.mem_cons.mp hg with hhead | htail
      · subst hhead
        simp only [List.length_map, List.length_take]
        omega
      · exact ih (i + 500) ((c :: rest).drop 500)
          (by simp only [List.length_drop, List.length_cons] at *; omega) g htail

/-- Every sequential window carries the dataset id it was built for. -/
theorem seqWindowsGo_datasetId (d : String) (t : Nat) :
    ∀ (n i : Nat) (xs : List ColumnMeta), xs.length ≤ n →
      ∀ g ∈ MetadataStore.seqWindowsGo d t i xs, g.datasetId = d := by
  intro n
  induction n with
  | zero =>
    intro i xs h
    have hx : xs = [] := List.eq_nil_of_length_eq_zero (Nat.le_zero.mp h)
    subst hx
    simp [MetadataStore.seqWindowsGo]
  | succ n ih =>
    intro i xs h g hg
    match xs, hg with
    | [], hg => simp [MetadataStore.seqWindowsGo] at hg
    | c :: rest, hg =>
      rw [MetadataStore.seqWindowsGo] at hg
      rcases List.mem_cons.mp hg with hhead | htail
      · subst hhead
        rfl
      · exact ih (i + 500) ((c :: rest).drop 500)
          (by simp only [List.length_drop, List.length_cons] at *; omega) g htail

/-- Every type-based group carries the dataset id it was built for. -/
theorem typeGroups_datasetId (d : String) (cols : List ColumnMeta) :
    ∀ g ∈ MetadataStore.typeGroups d cols, g.datasetId = d := by
  intro g hg
  rcases List.mem_map.mp hg with ⟨t, -, rfl⟩
  rfl

/-- Every prefix-based group carries the dataset id it was built for. -/
theorem prefixGroups_datasetId (d : String) (cols : List ColumnMeta) :
    ∀ g ∈ MetadataStore.prefixGroups d cols, g.datasetId = d := by
  intro g hg
  rcases List.mem_filterMap.mp hg with ⟨p, -, hp⟩
  by_cases hlen : ((cols.filter (fun c => MetadataStore.namePrefixKey c.name ==
      some p)).map ColumnMeta.name).length ≥ 5
  · rw [if_pos hlen] at hp
    cases hp
    rfl
  · rw [if_neg hlen] at hp
    cases hp

/-- Every automatically created group carries the dataset id. -/
theorem createAutomaticColumnGroups_datasetId (d : String) (cols : List ColumnMeta) :
    ∀ g ∈ MetadataStore.createAutomaticColumnGroups d cols, g.datasetId = d := by
  intro g hg
  unfold MetadataStore.createAutomaticColumnGroups at hg
  rcases List.mem_append.mp hg with hg' | hseq
  · rcases List.mem_append.mp hg' with hty | hpre
    · exact typeGroups_datasetId d cols g hty
    · exact prefixGroups_datasetId d cols g hpre
  · exact seqWindowsGo_datasetId d cols.length cols.length 0 cols (Nat.le_refl _) g hseq

/-! ### The claims -/

/-- C1: `process_csv_file` invokes the wide/chunked ingestion path
(`WideCsvProcessor`) exactly for CSVs whose successfully read header has
more than 1600 columns; at or below 1600 it takes the narrow path. -/
theorem c1_router_threshold (header : List String) :
    CsvProcessor.process_csv_file_route (some header) = .widePath ↔
      1600 < header.length := by
  simp only [CsvProcessor.process_csv_file_route, MAX_POSTGRES_COLUMNS]
  split
  case isTrue h => simpa using h
  case isFalse h =>
    constructor
    · intro hc
      cases hc
    · intro hc
      exact absurd hc h

/-- C2 (code-bug evidence): the first chunk is read with `dtype='object'`,
so `is_numeric_dtype` is false for every column and the `'Int64'`/
`'float64'` branches of the inference are unreachable — a column holding
only the integer literals 1, 2, 3 is typed `'object'`, and so is every
other column. -/
theorem c2_integer_column_typed_object :
    DuckDBProcessor.inferDtype (DuckDBProcessor.readCsvObjectColumn
      [some "1", some "2", some "3"]) = "object" ∧
    ∀ cells, DuckDBProcessor.inferDtype (DuckDBProcessor.readCsvObjectColumn cells) =
      "object" :=
  ⟨rfl, fun _ => rfl⟩

/-- C9: `clean_column_name` is idempotent — applied to its own output it
returns that output unchanged. -/
theorem c9_clean_column_name_idempotent (name r : String)
    (h : CsvProcessor.clean_column_name name = some r) :
    CsvProcessor.clean_column_name r = some r := by
  unfold CsvProcessor.clean_column_name at h ⊢
  cases hl : CsvProcessor.cleanColumnNameData name.data with
  | none => rw [hl] at h; cases h
  | some l =>
    rw [hl] at h
    have hr : (⟨l⟩ : String) = r := Option.some.inj h
    subst hr
    rw [show (⟨l⟩ : String).data = l from rfl,
      cleanColumnNameData_idem name.data l hl]
    rfl

/-- C9 witness: `clean_column_name "2 Col!"` is `"col_2_col_"`, and cleaning
`"col_2_col_"` again returns it unchanged. -/
theorem c9_witness :
    CsvProcessor.clean_column_name "2 Col!" = some "col_2_col_" ∧
    CsvProcessor.clean_column_name "col_2_col_" = some "col_2_col_" :=
  ⟨by decide, c9_clean_column_name_idempotent "2 Col!" "col_2_col_" (by decide)⟩

/-- C10: `clean_column_name` fails (the unconditional `cleaned[0]` at line
133 raises `IndexError`) exactly on the empty string, so the error branch
is unreachable for non-empty names. -/
theorem c10_clean_column_name_none_iff_empty (name : String) :
    CsvProcessor.clean_column_name name = none ↔ name = "" := by
  unfold CsvProcessor.clean_column_name
  rw [Option.map_eq_none', cleanColumnNameData_eq_none]
  constructor
  · intro h
    exact String.ext h
  · intro h
    subst h
    rfl

/-- C4: storing a column list creates sequential-window ColumnGroups iff
the list is longer than 1000 columns; when created there are exactly
`⌈n/500⌉` windows of at most 500 columns each, and the windows partition
the column list in order (so they are consecutive). -/
theorem c4_sequential_windows (s : MetadataStore)
    (datasetId name description tableName : String) (cols : List ColumnMeta)
    (rowCount : Nat) (fileSize : Option Nat) (tags : Option (List String))
    (now : String) :
    (cols.length ≤ 1000 →
      (s.store_dataset_metadata datasetId name description tableName cols rowCount
        fileSize tags now).groups = s.groups) ∧
    (1000 < cols.length →
      (s.store_dataset_metadata datasetId name description tableName cols rowCount
        fileSize tags now).groups =
        s.groups ++ (MetadataStore.typeGroups datasetId cols ++
          MetadataStore.prefixGroups datasetId cols ++
          MetadataStore.seqWindowGroups datasetId cols) ∧
      (MetadataStore.seqWindowGroups datasetId cols).length =
        (cols.length + 499) / 500 ∧
      ((MetadataStore.seqWindowGroups datasetId cols).map
        ColumnGroup.columns).flatten = cols.map ColumnMeta.name ∧
      ∀ g ∈ MetadataStore.seqWindowGroups datasetId cols,
        g.columns.length ≤ 500) := by
  constructor
  · intro hle
    simp only [MetadataStore.store_dataset_metadata]
    rw [if_neg (by omega), List.append_nil]
  · intro hgt
    refine ⟨?_, ?_, ?_, ?_⟩
    · simp only [MetadataStore.store_dataset_metadata]
      rw [if_pos (by omega)]
      rfl
    · exact seqWindowsGo_length datasetId cols.length cols.length 0 cols
        (Nat.le_refl _)
    · exact seqWindowsGo_join datasetId cols.length cols.length 0 cols
        (Nat.le_refl _)
    · exact seqWindowsGo_bound datasetId cols.length cols.length 0 cols
        (Nat.le_refl _)

/-- C4 witness: a 2000-column list is wide and produces exactly 4
sequential windows. -/
theorem c4_witness :
    1000 < cols2000.length ∧
    (MetadataStore.seqWindowGroups "d" cols2000).length = 4 := by
  have hlen : cols2000.length = 2000 := List.length_replicate 2000 _
  have h := (c4_sequential_windows MetadataStore.empty "d" "n" "de" "t" cols2000 3
    none none "now").2 (by omega)
  refine ⟨by omega, ?_⟩
  rw [h.2.1, hlen]

/-- C3: after storing a dataset (fresh id), `get_dataset` returns, for a
column list longer than 1000, the column-group list and a sample of at most
10 columns with no full column list; at or below 1000 it returns the full
column list and no groups. -/
theorem c3_get_dataset_threshold (s s' : MetadataStore)
    (datasetId name description tableName : String) (cols : List ColumnMeta)
    (rowCount : Nat) (fileSize : Option Nat) (tags : Option (List String))
    (now : String)
    (hs' : s' = s.store_dataset_metadata datasetId name description tableName cols
      rowCount fileSize tags now)
    (hds : ∀ d ∈ s.datasets, d.id ≠ datasetId)
    (hcols : ∀ c ∈ s.columns, c.datasetId ≠ datasetId)
    (hgroups : ∀ g ∈ s.groups, g.datasetId ≠ datasetId) :
    ∃ v, s'.get_dataset datasetId = some v ∧
      (1000 < cols.length →
        v.columns = none ∧
        v.columnGroups = some ((MetadataStore.createAutomaticColumnGroups datasetId
          cols).map (fun g => ⟨g.name, g.description⟩)) ∧
        v.columnsTruncated = true ∧
        ∃ samp, v.columnsSample = some samp ∧ samp.length ≤ 10) ∧
      (cols.length ≤ 1000 →
        v.columnGroups = none ∧ v.columnsSample = none ∧
        v.columns = some (cols.map (fun c => ⟨c.name, c.type, none⟩))) := by
  subst hs'
  have hfind : (s.store_dataset_metadata datasetId name description tableName cols
      rowCount fileSize tags now).datasets.find? (fun d => d.id == datasetId) =
      some { id := datasetId
             name := name
             description := description
             tableName := tableName
             createdAt := now
             columnCount := cols.length
             rowCount := rowCount
             fileSize := fileSize
             storageFormat := "parquet"
             tags := tags } := by
    simp only [MetadataStore.store_dataset_metadata, List.find?_append]
    have h1 : s.datasets.find? (fun d => d.id == datasetId) = none := by
      apply List.find?_eq_none.mpr
      intro d hd
      simpa using hds d hd
    rw [h1]
    simp
  have hcolsOf : MetadataStore.columnsOf (s.store_dataset_metadata datasetId name
      description tableName cols rowCount fileSize tags now) datasetId =
      cols.map (fun c => ColumnRow.mk datasetId c.name c.type none) := by
    unfold MetadataStore.columnsOf
    simp only [MetadataStore.store_dataset_metadata, List.filter_append]
    have h1 : s.columns.filter (fun c => c.datasetId == datasetId) = [] := by
      apply List.filter_eq_nil_iff.mpr
      intro c hc
      simpa using hcols c hc
    have h2 : (cols.map (fun c => ColumnRow.mk datasetId c.name c.type none)).filter
        (fun c => c.datasetId == datasetId) =
        cols.map (fun c => ColumnRow.mk datasetId c.name c.type none) := by
      apply List.filter_eq_self.mpr
      intro c hc
      rcases List.mem_map.mp hc with ⟨a, -, rfl⟩
      simp
    rw [h1, h2, List.nil_append]
  have hgroupsOf : (s.store_dataset_metadata datasetId name description tableName
      cols rowCount fileSize tags now).groups.filter
      (fun g => g.datasetId == datasetId) =
      (if cols.length > 1000 then
        MetadataStore.createAutomaticColumnGroups datasetId cols else []) := by
    simp only [MetadataStore.store_dataset_metadata, List.filter_append]
    have h1 : s.groups.filter (fun g => g.datasetId == datasetId) = [] := by
      apply List.filter_eq_nil_iff.mpr
      intro g hg
      simpa using hgroups g hg
    rw [h1, List.nil_append]
    by_cases hw : cols.length > 1000
    · rw [if_pos hw]
      apply List.filter_eq_self.mpr
      intro g hg
      have := createAutomaticColumnGroups_datasetId datasetId cols g hg
      simp [this]
    · rw [if_neg hw]
      rfl
  by_cases hw : 1000 < cols.length
  · have hget : (s.store_dataset_metadata datasetId name description tableName cols
        rowCount fileSize tags now).get_dataset datasetId =
        some { id := datasetId
               name := name
               description := description
               tableName := tableName
               createdAt := now
               columnCount := cols.length
               rowCount := rowCount
               fileSize := fileSize
               storageFormat := "parquet"
               tags := tags.getD []
               columnGroups := some ((MetadataStore.createAutomaticColumnGroups
                 datasetId cols).map (fun g => ⟨g.name, g.description⟩))
               columnsTruncated := true
               columnsSample := some (MetadataStore.getColumnsSample
                 (s.store_dataset_metadata datasetId name description tableName cols
                   rowCount fileSize tags now) datasetId 10)
               columns := none } := by
      unfold MetadataStore.get_dataset
      rw [hfind]
      simp only [hcolsOf, List.length_map, hgroupsOf, if_pos hw]
    refine ⟨_, hget, fun _ => ⟨rfl, rfl, rfl, ⟨_, rfl, ?_⟩⟩,
      fun hle => absurd hw (by omega)⟩
    unfold MetadataStore.getColumnsSample
    rw [List.length_map]
    exact le_trans (List.length_take_le 10 _) (Nat.le_refl _)
  · have hget : (s.store_dataset_metadata datasetId name description tableName cols
        rowCount fileSize tags now).get_dataset datasetId =
        some { id := datasetId
               name := name
               description := description
               tableName := tableName
               createdAt := now
               columnCount := cols.length
               rowCount := rowCount
               fileSize := fileSize
               storageFormat := "parquet"
               tags := tags.getD []
               columnGroups := none
               columnsTruncated := false
               columnsSample := none
               columns := some ((cols.map (fun c =>
                 ColumnRow.mk datasetId c.name c.type none)).map
                   (fun c => ⟨c.name, c.type, c.description⟩)) } := by
      unfold MetadataStore.get_dataset
      rw [hfind]
      simp only [hcolsOf, List.length_map, if_neg hw]
    refine ⟨_, hget, fun hgt => absurd hgt hw, fun _ => ⟨rfl, rfl, ?_⟩⟩
    rw [List.map_map]
    rfl

/-- C3 witness: storing a one-column dataset into the empty catalog and
reading it back returns the full column list and no groups. -/
theorem c3_witness :
    ∃ v, (MetadataStore.store_dataset_metadata MetadataStore.empty "d1" "n" "de" "t1"
        [⟨"a", "object"⟩] 1 none none "now").get_dataset "d1" = some v ∧
      (1000 < ([⟨"a", "object"⟩] : List ColumnMeta).length →
        v.columns = none ∧
        v.columnGroups = some ((MetadataStore.createAutomaticColumnGroups "d1"
          [⟨"a", "object"⟩]).map (fun g => ⟨g.name, g.description⟩)) ∧
        v.columnsTruncated = true ∧
        ∃ samp, v.columnsSample = some samp ∧ samp.length ≤ 10) ∧
      (([⟨"a", "object"⟩] : List ColumnMeta).length ≤ 1000 →
        v.columnGroups = none ∧ v.columnsSample = none ∧
        v.columns = some (([⟨"a", "object"⟩] : List ColumnMeta).map
          (fun c => ⟨c.name, c.type, none⟩))) :=
  c3_get_dataset_threshold MetadataStore.empty _ "d1" "n" "de" "t1"
    [⟨"a", "object"⟩] 1 none none "now" rfl (by simp [MetadataStore.empty])
    (by simp [MetadataStore.empty]) (by simp [MetadataStore.empty])

/-- C5: a `query_text` whose stripped upper-casing starts with `SELECT` is
dispatched as a verbatim `sql_query` against the dataset's backing table
(even when it contains keywords like `count`), and the outcome never
consults the semantic index: any backend with the same `queryTable` gives
the same answer whatever its `searchColumns` does. -/
theorem c5_select_passthrough (b b' : QueryBackend) (st : WideState)
    (datasetId queryText : String) (limit : Nat) {ds : MetadataStore.DatasetView}
    (hds : st.meta.get_dataset datasetId = some ds)
    (hsel : pyStartsWith (pyUpperChars (pyStrip queryText.data)) "SELECT".data = true)
    (hqt : b'.queryTable = b.queryTable) :
    WideCsvProcessor.query_dataset b st datasetId queryText limit =
      .ok (.sqlQuery queryText (b.queryTable ds.tableName queryText limit)) ∧
    WideCsvProcessor.query_dataset b' st datasetId queryText limit =
      WideCsvProcessor.query_dataset b st datasetId queryText limit := by
  unfold WideCsvProcessor.query_dataset
  rw [hds]
  simp only [hsel, if_pos, if_true, hqt]
  exact ⟨by trivial, by trivial⟩

/-- C5 witness: the SQL text `" select * from t1"` (leading space, lower
case, containing no keyword match) runs verbatim on dataset `d1`, and the
backend whose index would find a column gives the same answer as the one
whose index is empty. -/
theorem c5_witness :
    WideCsvProcessor.query_dataset echoBackend sampleWideState "d1" " select * from t1"
      1000 = .ok (.sqlQuery " select * from t1" [[("sql", " select * from t1")]]) ∧
    WideCsvProcessor.query_dataset echoBackendSearch sampleWideState "d1"
      " select * from t1" 1000 =
      WideCsvProcessor.query_dataset echoBackend sampleWideState "d1" " select * from t1"
        1000 := by
  have h := c5_select_passthrough echoBackend echoBackendSearch sampleWideState "d1"
    " select * from t1" 1000 rfl (by decide) rfl
  exact ⟨h.1, h.2⟩

/-- C6: a non-`SELECT` query containing `count` or `how many`
(case-insensitively) for which the semantic index returns at least one
column generates exactly `SELECT COUNT(*) AS count FROM <backing table>`
and is tagged `nl_query`; the count branch is tested first, so it wins over
the later average/max/min branches whatever else the text contains. -/
theorem c6_count_template (b : QueryBackend) (st : WideState)
    (datasetId queryText : String) (limit : Nat) {ds : MetadataStore.DatasetView}
    {top : RankedColumn} {rest : List RankedColumn}
    (hds : st.meta.get_dataset datasetId = some ds)
    (hsel : pyStartsWith (pyUpperChars (pyStrip queryText.data)) "SELECT".data = false)
    (hkw : (strContains (pyLowerChars queryText.data) "count".data ||
      strContains (pyLowerChars queryText.data) "how many".data) = true)
    (hsearch : b.searchColumns queryText 5 = top :: rest) :
    WideCsvProcessor.query_dataset b st datasetId queryText limit =
      .ok (.nlQuery queryText ("SELECT COUNT(*) AS count FROM " ++ ds.tableName)
        (top :: rest)
        (b.queryTable ds.tableName ("SELECT COUNT(*) AS count FROM " ++ ds.tableName)
          limit)) := by
  unfold WideCsvProcessor.query_dataset
  rw [hds]
  simp only [hsel, Bool.false_eq_true, if_false, hsearch, hkw, if_pos, if_true]

/-- C6 witness: the query `"how many rows"` against dataset `d1` (backing
table `t1`) generates `SELECT COUNT(*) AS count FROM t1`. -/
theorem c6_witness :
    WideCsvProcessor.query_dataset echoBackendSearch sampleWideState "d1"
      "how many rows" 1000 =
      .ok (.nlQuery "how many rows" "SELECT COUNT(*) AS count FROM t1"
        [⟨"d1", "c1", "object", "", 1⟩]
        [[("sql", "SELECT COUNT(*) AS count FROM t1")]]) := by
  have h := c6_count_template echoBackendSearch sampleWideState "d1" "how many rows"
    1000 rfl (by decide) (by decide) rfl
  exact h

/-- Deleting a dataset removes its row from the catalog, so a later lookup
is a not-found. -/
theorem MetadataStore.get_dataset_delete (s : MetadataStore) (datasetId : String) :
    (s.delete_dataset datasetId).get_dataset datasetId = none := by
  have h : ((s.delete_dataset datasetId).datasets).find?
      (fun d => d.id == datasetId) = none := by
    apply List.find?_eq_none.mpr
    intro d hd
    simp only [MetadataStore.delete_dataset, List.mem_filter] at hd
    simpa using hd.2
  unfold MetadataStore.get_dataset
  rw [h]

/-- Removing every occurrence of a string from a list makes `contains`
false for it. -/
theorem contains_filter_ne_self (l : List String) (a : String) :
    ((l.filter (fun f => !(f == a))).contains a) = false := by
  rw [Bool.eq_false_iff]
  intro hc
  have hm : a ∈ l.filter (fun f => !(f == a)) := List.elem_iff.mp hc
  have := (List.mem_filter.mp hm).2
  simp at this

/-- After dropping the records of a dataset id, none with that id remain. -/
theorem embeddings_filter_filter (l : List EmbeddingRecord) (a : String) :
    (l.filter (fun e => !(e.datasetId == a))).filter
      (fun e => e.datasetId == a) = [] := by
  apply List.filter_eq_nil_iff.mpr
  intro e he
  have := (List.mem_filter.mp he).2
  simp_all

/-- C7 (amended): after `delete_dataset` succeeds, `get(dataset_id)` is a
not-found and the Parquet file is gone; for the process-local backend the
persisted replica file is removed (its in-process records survive), and for
the Pinecone backend every embedding record with the dataset id is deleted
— the Qdrant backend is not covered by any branch, so its records
survive. -/
theorem c7_delete_dataset_behavior (st : WideState) (datasetId : String)
    {ds : MetadataStore.DatasetView}
    (hds : st.meta.get_dataset datasetId = some ds) :
    (WideCsvProcessor.delete_dataset st datasetId).2 = true ∧
    (WideCsvProcessor.delete_dataset st datasetId).1.meta.get_dataset datasetId =
      none ∧
    (st.storeType = .localStore →
      ((WideCsvProcessor.delete_dataset st datasetId).1.localFiles.contains
        datasetId) = false) ∧
    (st.storeType = .pinecone →
      (WideCsvProcessor.delete_dataset st datasetId).1.embeddings.filter
        (fun e => e.datasetId == datasetId) = []) ∧
    ((WideCsvProcessor.delete_dataset st datasetId).1.parquetFiles.contains
      ds.tableName) = false := by
  rcases st with ⟨ty, meta, emb, lf, pf⟩
  cases ty
  case localStore =>
    have hred : WideCsvProcessor.delete_dataset ⟨.localStore, meta, emb, lf, pf⟩
        datasetId =
        (⟨.localStore, meta.delete_dataset datasetId, emb,
          lf.filter (fun f => !(f == datasetId)),
          pf.filter (fun f => !(f == ds.tableName))⟩, true) := by
      simp only [WideCsvProcessor.delete_dataset, hds]
    rw [hred]
    refine ⟨rfl, MetadataStore.get_dataset_delete meta datasetId, ?_, ?_, ?_⟩
    · intro _
      exact contains_filter_ne_self lf datasetId
    · intro h
      simp at h
    · exact contains_filter_ne_self pf ds.tableName
  case pinecone =>
    have hred : WideCsvProcessor.delete_dataset ⟨.pinecone, meta, emb, lf, pf⟩
        datasetId =
        (⟨.pinecone, meta.delete_dataset datasetId,
          emb.filter (fun e => !(e.datasetId == datasetId)), lf,
          pf.filter (fun f => !(f == ds.tableName))⟩, true) := by
      simp only [WideCsvProcessor.delete_dataset, hds]
    rw [hred]
    refine ⟨rfl, MetadataStore.get_dataset_delete meta datasetId, ?_, ?_, ?_⟩
    · intro h
      simp at h
    · intro _
      exact embeddings_filter_filter emb datasetId
    · exact contains_filter_ne_self pf ds.tableName
  case qdrant =>
    have hred : WideCsvProcessor.delete_dataset ⟨.qdrant, meta, emb, lf, pf⟩
        datasetId =
        (⟨.qdrant, meta.delete_dataset datasetId, emb, lf,
          pf.filter (fun f => !(f == ds.tableName))⟩, true) := by
      simp only [WideCsvProcessor.delete_dataset, hds]
    rw [hred]
    refine ⟨rfl, MetadataStore.get_dataset_delete meta datasetId, ?_, ?_, ?_⟩
    · intro h
      simp at h
    · intro h
      simp at h
    · exact contains_filter_ne_self pf ds.tableName

/-- C7 counterexample: with the Qdrant backend active, deleting dataset
`d1` succeeds and removes it from the catalog, yet the embedding record
tagged `d1` is still visible to the backend afterwards (no branch of
`delete_dataset` touches a Qdrant index). -/
theorem c7_counterexample :
    (WideCsvProcessor.delete_dataset qdrantDemoState "d1").2 = true ∧
    (WideCsvProcessor.delete_dataset qdrantDemoState "d1").1.meta.get_dataset "d1" =
      none ∧
    (WideCsvProcessor.delete_dataset qdrantDemoState "d1").1.embeddings =
      [⟨"d1", "c1", "object", ""⟩] := by
  decide

/-- C7 witness: deleting `d1` from the populated local-backend state
succeeds, the catalog lookup becomes not-found, and both the replica file
and the Parquet file are gone. -/
theorem c7_witness :
    (WideCsvProcessor.delete_dataset sampleWideState "d1").2 = true ∧
    (WideCsvProcessor.delete_dataset sampleWideState "d1").1.meta.get_dataset "d1" =
      none ∧
    ((WideCsvProcessor.delete_dataset sampleWideState "d1").1.localFiles.contains
      "d1") = false ∧
    ((WideCsvProcessor.delete_dataset sampleWideState "d1").1.parquetFiles.contains
      "t1") = false := by
  have h := c7_delete_dataset_behavior sampleWideState "d1" rfl
  exact ⟨h.1, h.2.1, h.2.2.1 rfl, h.2.2.2.2⟩

/-- C8 (amended): `get`, `list` and `delete` return typed results (`none`
for an unknown id, `false` for a failed delete), but an ingestion failure
and a query against an unknown dataset id raise `ValueError` to the caller
(`Except.error` here) rather than returning a typed error payload. -/
theorem c8_error_raising (b : QueryBackend) (st : WideState)
    (datasetId q : String) (limit : Nat) (e datasetName : String)
    (description : Option String) (fileSize : Nat) (now : String)
    (hmiss : st.meta.get_dataset datasetId = none) :
    WideCsvProcessor.query_dataset b st datasetId q limit =
      .error ("Dataset not found: " ++ datasetId) ∧
    WideCsvProcessor.delete_dataset st datasetId = (st, false) ∧
    WideCsvProcessor.process_csv_file (.error e) st datasetId datasetName description
      fileSize now = .error ("Failed to process CSV file: " ++ e) := by
  refine ⟨?_, ?_, rfl⟩
  · unfold WideCsvProcessor.query_dataset
    rw [hmiss]
  · unfold WideCsvProcessor.delete_dataset
    rw [hmiss]

/-- C8 counterexample: querying the unknown dataset id `missing` makes
`query_dataset` raise `ValueError("Dataset not found: missing")` — an
exception propagating to the caller, not a typed error payload. -/
theorem c8_counterexample :
    WideCsvProcessor.query_dataset echoBackend emptyWideState "missing"
      "how many rows" 1000 = .error "Dataset not found: missing" := by
  rfl

/-- C8 witness: the raising behavior at a concrete unknown id and a
concrete failed ingestion. -/
theorem c8_witness :
    WideCsvProcessor.query_dataset echoBackend emptyWideState "nope" "q" 1000 =
      .error ("Dataset not found: " ++ "nope") ∧
    WideCsvProcessor.delete_dataset emptyWideState "nope" = (emptyWideState, false) ∧
    WideCsvProcessor.process_csv_file (.error "boom") emptyWideState "nope" "n" none 0
      "now" = .error ("Failed to process CSV file: " ++ "boom") :=
  c8_error_raising echoBackend emptyWideState "nope" "q" 1000 "boom" "n" none 0
    "now" rfl

end SAPDO
